import Mathlib

/-!
Verification of the core audio/state-machine engine of the `meep`
push-to-talk voice-to-text bridge.

Shallow embedding of the Python sources:
  - `src/core/audio/voice_recorder.py`   (`VoiceRecorder`)
  - `src/core/audio/speech_recognizer.py` (`SpeechRecognizer`)
  - `src/core/audio/audio_processor.py`  (`AudioProcessor`)
  - `src/services/voice_service.py`      (`VoiceService`)

Conventions: audio samples (float32 in the source) are treated as opaque
scalars and modelled by `Int`; one callback chunk (`indata`, shape
`(frames, 1)` since `channels = 1`) is a flat `List Sample`; raised
`AudioProcessingError` exceptions are modelled by `Except String`;
external effects (stream open success, backend transcription output,
model construction success, wait outcome) are explicit oracle
parameters. Logging is ignored. The Python field `_current_prefix` is
rendered `cur_pfx` here.
-/

abbrev Sample := Int

abbrev Chunk := List Sample

/-- State of `VoiceRecorder` (voice_recorder.py): the chunk deque
`_audio_buffer`, whether `_stream` is an open stream, and the
`_is_recording` flag. -/
structure VoiceRecorder where
  audio_buffer : List Chunk
  stream_open : Bool
  is_recording : Bool
deriving Repr, DecidableEq

namespace VoiceRecorder

/-- Python `VoiceRecorder.start_recording`. `streamOk` models whether opening and
starting the `sd.InputStream` succeeds. If a recording is already in
progress the method only logs a warning and returns. On stream failure the
`_is_recording` flag is reset and `AudioProcessingError` is raised (the
buffer was already cleared). -/
def startRecording (r : VoiceRecorder) (streamOk : Bool) :
    VoiceRecorder × Except String Unit :=
  if r.is_recording then (r, Except.ok ())
  else if streamOk then
    ({ audio_buffer := [], stream_open := true, is_recording := true }, Except.ok ())
  else
    ({ audio_buffer := [], stream_open := r.stream_open, is_recording := false },
     Except.error "Failed to start recording")

/-- Python `VoiceRecorder.stop_recording`. When no recording is in progress it
logs a warning and returns the empty array. Otherwise it clears the flag,
closes the stream, and under the buffer lock: raises when no chunk was
captured, else concatenates the chunks in arrival order
(`np.concatenate(list(buffer), axis=0).squeeze()`) and clears the buffer. -/
def stopRecording (r : VoiceRecorder) : VoiceRecorder × Except String Chunk :=
  if r.is_recording = false then (r, Except.ok [])
  else if r.audio_buffer.isEmpty then
    ({ r with is_recording := false, stream_open := false },
     Except.error "Failed to stop recording: No audio data captured")
  else
    ({ audio_buffer := [], stream_open := false, is_recording := false },
     Except.ok r.audio_buffer.flatten)

/-- Python `VoiceRecorder._audio_callback`: while `_is_recording`, appends the
incoming chunk to `_audio_buffer` under the buffer lock; otherwise drops
it. -/
def audioCallback (r : VoiceRecorder) (indata : Chunk) : VoiceRecorder :=
  if r.is_recording then { r with audio_buffer := r.audio_buffer ++ [indata] }
  else r

/-- The recorder state right after a successful `start_recording`:
buffer cleared, stream open, recording flag set. -/
def started : VoiceRecorder :=
  { audio_buffer := [], stream_open := true, is_recording := true }

/-- One recording session: the states visited by delivering the chunks
`cs` to `_audio_callback` in arrival order. -/
def recordSession (r : VoiceRecorder) (cs : List Chunk) : VoiceRecorder :=
  cs.foldl audioCallback r

end VoiceRecorder

/-- While the recording flag stays set, the audio callback accumulates
exactly the delivered chunks, in arrival order, at the end of the buffer. -/
theorem recordSession_buffer (cs : List Chunk) (r : VoiceRecorder)
    (h : r.is_recording = true) :
    VoiceRecorder.recordSession r cs =
      { r with audio_buffer := r.audio_buffer ++ cs } := by
  induction cs generalizing r with
  | nil => simp [VoiceRecorder.recordSession]
  | cons c cs ih =>
    simp only [VoiceRecorder.recordSession, List.foldl_cons]
    rw [show List.foldl VoiceRecorder.audioCallback
          (VoiceRecorder.audioCallback r c) cs =
        VoiceRecorder.recordSession (VoiceRecorder.audioCallback r c) cs from rfl]
    rw [ih]
    · simp [VoiceRecorder.audioCallback, h]
    · simp [VoiceRecorder.audioCallback, h]

/-- Claim C1: for every recording session in which at least one chunk was
appended by the audio callback, `stop_recording` returns exactly the
concatenation of all appended chunks in arrival order as one flat sample
array, and the buffer is cleared afterwards. -/
theorem c1_stop_returns_concat_in_order (cs : List Chunk) (h : cs ≠ []) :
    VoiceRecorder.stopRecording (VoiceRecorder.recordSession VoiceRecorder.started cs) =
      ({ audio_buffer := [], stream_open := false, is_recording := false },
       Except.ok cs.flatten) := by
  rw [recordSession_buffer cs VoiceRecorder.started rfl]
  simp [VoiceRecorder.stopRecording, VoiceRecorder.started, h]

/-- Claim C1, witness: a concrete two-chunk session. -/
theorem c1_stop_returns_concat_in_order_witness :
    VoiceRecorder.stopRecording
        (VoiceRecorder.recordSession VoiceRecorder.started [[1, 2], [3]]) =
      ({ audio_buffer := [], stream_open := false, is_recording := false },
       Except.ok [1, 2, 3]) :=
  c1_stop_returns_concat_in_order [[1, 2], [3]] (by decide)

/-! Section: SpeechRecognizer, speech_recognizer.py -/

/-- Constant `DEFAULT_SENTENCE_ENDINGS` from config/constants.py. -/
def sentenceEndings : List Char := ['.', '!', '?']

/-- Python `str.endswith(DEFAULT_SENTENCE_ENDINGS)`: the last character is one of
`.`, `!`, `?`. -/
def endsWithEnding (s : List Char) : Bool :=
  match s.getLast? with
  | some c => sentenceEndings.contains c
  | none => false

/-- Python `SpeechRecognizer._format_text` on the character list of the text:
empty text is returned unchanged; otherwise the first character is
uppercased (`str.upper`, basic latin) and a `.` is appended unless the
text already ends in a sentence ending. -/
def formatTextL (s : List Char) : List Char :=
  match s with
  | [] => []
  | c :: rest =>
    let f := c.toUpper :: rest
    if endsWithEnding f then f else f ++ ['.']

/-- Python `SpeechRecognizer._format_text`. -/
def format_text (s : String) : String := String.mk (formatTextL s.data)

/-- Python `str.strip()` (whitespace from both ends), on a character
list. -/
def pyStrip (s : List Char) : List Char :=
  ((s.dropWhile Char.isWhitespace).reverse.dropWhile Char.isWhitespace).reverse

/-- Concatenation of the backend segment texts followed by a strip, as
computed in `transcribe`. -/
def joinStripSegs (segs : List String) : String :=
  String.mk (pyStrip (segs.map String.data).flatten)

/-- State of `SpeechRecognizer`: the `_is_model_loading` and
`_is_model_ready` flags and whether `_model` is not `None`. -/
structure SpeechRecognizer where
  is_model_loading : Bool
  is_model_ready : Bool
  model_loaded : Bool
deriving Repr, DecidableEq

/-- The four model lifecycle states of the spec data model, as
`SpeechRecognizer` flag states: `Unloaded`, `Loading`, `Ready`,
`Failed`. -/
def modelUnloaded : SpeechRecognizer := ⟨false, false, false⟩

/-- The `Loading` flag state. -/
def modelLoading : SpeechRecognizer := ⟨true, false, false⟩

/-- The `Ready` flag state. -/
def modelReady : SpeechRecognizer := ⟨false, true, true⟩

/-- The `Failed` flag state. -/
def modelFailed : SpeechRecognizer := ⟨false, false, false⟩

/-- Result of `transcribe`: the returned text or raised
`AudioProcessingError`, together with how many times the Whisper backend
(`self._model.transcribe`) was invoked. -/
structure TranscribeOut where
  result : Except String String
  backend_calls : Nat
deriving Repr

/-- The body of `SpeechRecognizer.transcribe` after the readiness gates:
under the model lock, raises if `_model` is `None`, otherwise invokes the
backend once (`backend` is the oracle for its outcome: the list of segment
texts, or a raised error), joins and strips the segment texts, and formats
a non-empty result. -/
def transcribeBody (model_loaded : Bool) (backend : Except String (List String)) :
    TranscribeOut :=
  if model_loaded = false then
    ⟨Except.error "Transcription failed: Model is None despite being marked as ready", 0⟩
  else
    match backend with
    | Except.error e => ⟨Except.error ("Transcription failed: " ++ e), 1⟩
    | Except.ok segs =>
      let text := joinStripSegs segs
      if text = "" then ⟨Except.ok "", 1⟩
      else ⟨Except.ok (format_text text), 1⟩

namespace SpeechRecognizer

/-- Python `SpeechRecognizer.transcribe`. Raises on empty sample input before any
model-state check; if the model is not ready: when loading, waits up to
30 s (`waitOk` is the oracle for `wait_for_model`) and raises on a false
outcome, when not loading raises immediately. Otherwise runs the backend
body. -/
def transcribe (s : SpeechRecognizer) (audio_data : Chunk)
    (waitOk : Bool) (backend : Except String (List String)) : TranscribeOut :=
  if audio_data.length = 0 then ⟨Except.error "No audio data provided", 0⟩
  else if s.is_model_ready then transcribeBody s.model_loaded backend
  else if s.is_model_loading then
    if waitOk then transcribeBody s.model_loaded backend
    else ⟨Except.error "Model loading timeout or failed", 0⟩
  else ⟨Except.error "Model not initialized", 0⟩

/-- Python `SpeechRecognizer.initialize_model_async`: no-op when already loading
or ready, otherwise sets the loading flag and spawns the loader thread.
The returned `Bool` records whether a loader thread was spawned (a
construction attempt begun). -/
def initModelAsync (s : SpeechRecognizer) : SpeechRecognizer × Bool :=
  if s.is_model_loading || s.is_model_ready then (s, false)
  else ({ s with is_model_loading := true }, true)

/-- Python `SpeechRecognizer._load_model_sync`, one terminating load attempt.
`constructionOk` is the oracle for whether `WhisperModel(...)` succeeds.
The returned list records the invocations of the registered
`_model_ready_callback` observer: the `finally` block always clears the
loading flag and invokes the observer exactly once with
`_is_model_ready`. -/
def loadModelSync (s : SpeechRecognizer) (constructionOk : Bool) :
    SpeechRecognizer × List Bool :=
  if s.model_loaded then
    ({ s with is_model_loading := false },
     [({ s with is_model_loading := false} : SpeechRecognizer).is_model_ready])
  else if constructionOk then
    ((⟨false, true, true⟩ : SpeechRecognizer), [true])
  else
    ({ s with is_model_loading := false, is_model_ready := false }, [false])

end SpeechRecognizer

/-- Spawn count of a sequence of `initialize_model_async` calls (no load
completion in between). -/
def loadAsyncCount (s : SpeechRecognizer) : Nat → Nat
  | 0 => 0
  | Nat.succ n =>
    ((if (SpeechRecognizer.initModelAsync s).2 then 1 else 0)
      + loadAsyncCount (SpeechRecognizer.initModelAsync s).1 n)

/-! Section: AudioProcessor, audio_processor.py -/

/-- State of `AudioProcessor`: the owned `VoiceRecorder` and
`SpeechRecognizer`. -/
structure AudioProcessor where
  recorder : VoiceRecorder
  recognizer : SpeechRecognizer
deriving Repr

namespace AudioProcessor

/-- Python `AudioProcessor.is_recording`, delegating to the recorder. -/
def isRecording (p : AudioProcessor) : Bool := p.recorder.is_recording

/-- Python `AudioProcessor.start_recording`: raises `AudioProcessingError` when
the model is not ready, before touching the recorder; otherwise starts the
recorder, wrapping any raised error. -/
def startRecording (p : AudioProcessor) (streamOk : Bool) :
    AudioProcessor × Except String Unit :=
  if p.recognizer.is_model_ready = false then
    (p, Except.error "Speech recognition model is not ready")
  else
    match VoiceRecorder.startRecording p.recorder streamOk with
    | (r, Except.ok _) => ({ p with recorder := r }, Except.ok ())
    | (r, Except.error e) =>
      ({ p with recorder := r }, Except.error ("Failed to start recording: " ++ e))

/-- Python `AudioProcessor.stop_recording_and_process` together with the
`_process_audio` thread body it spawns. Returns the new state and the list
of `_transcription_callback` invocations (`some text` for a transcription
result, `none` for the `None` passed on failure): a warned no-op when not
recording; otherwise the recorder is drained synchronously — a raised
`AudioProcessingError` is caught and fed to the callback as `None` — and
the processing thread transcribes the drained audio and invokes the
callback with the text, or with `None` when transcription raises. -/
def stopRecordingAndProcess (p : AudioProcessor) (waitOk : Bool)
    (backend : Except String (List String)) :
    AudioProcessor × List (Option String) :=
  if p.isRecording = false then (p, [])
  else
    match VoiceRecorder.stopRecording p.recorder with
    | (r, Except.error _) => ({ p with recorder := r }, [none])
    | (r, Except.ok audio_data) =>
      match (SpeechRecognizer.transcribe p.recognizer audio_data waitOk backend).result with
      | Except.ok text => ({ p with recorder := r }, [some text])
      | Except.error _ => ({ p with recorder := r }, [none])

end AudioProcessor

/-! Section: VoiceService, voice_service.py -/

/-- State of `VoiceService` relevant to the hotkey handlers: the owned
`AudioProcessor`, the `_is_running` flag, the `_current_prefix` marker
(rendered `cur_pfx`), and the `_auto_send` flag. -/
structure VoiceService where
  processor : AudioProcessor
  is_running : Bool
  cur_pfx : String
  auto_send : Bool
deriving Repr

/-- Send-mode label used in status messages. -/
def sendMode (auto_send : Bool) : String :=
  if auto_send then "auto-send" else "manual-send"

namespace VoiceService

/-- Python `VoiceService.start`: warned no-op when already running; returns after
a single status event when the model is not ready, without setting
`_is_running` or starting hotkey monitoring; otherwise sets `_is_running`,
starts monitoring and emits the started status. The returned `Bool`
records whether hotkey monitoring (the `HotkeyManager` plus the monitoring
thread) was begun; the list holds the emitted status events. -/
def startService (v : VoiceService) : VoiceService × Bool × List String :=
  if v.is_running then (v, false, [])
  else if v.processor.recognizer.is_model_ready = false then
    (v, false, ["Cannot start: Speech recognition model not ready"])
  else
    ({ v with is_running := true }, true,
     ["Started (" ++ sendMode v.auto_send ++ "). Use configured hotkeys to record"])

/-- Python `VoiceService._on_hotkey_released`: only when the processor is
recording and the released binding equals the active channel marker does
it call `stop_recording_and_process` and emit the processing status. The
returned `Bool` records whether `stop_recording_and_process` was
called. -/
def onHotkeyReleased (v : VoiceService) (pfx : String) (waitOk : Bool)
    (backend : Except String (List String)) :
    VoiceService × Bool × List String :=
  if v.processor.isRecording && v.cur_pfx == pfx then
    ({ v with processor := (AudioProcessor.stopRecordingAndProcess v.processor waitOk backend).1 },
     true, ["Processing..."])
  else (v, false, [])

/-- Python `VoiceService._format_message`: prepend the active prefix and a space
when the prefix is non-empty. -/
def formatMessage (text pfx : String) : String :=
  if pfx ≠ "" then pfx ++ " " ++ text else text

/-- Python `VoiceService._on_transcription_complete`, restricted to its delivery
decision: a falsy transcription result (`None` or the empty string) emits
only the no-speech status; otherwise the formatted message is handed to
`MessageSender.send_message` with the current `_auto_send` flag. The
returned list holds the `(message, auto_send)` deliveries. -/
def onTranscriptionComplete (v : VoiceService) (text : Option String) :
    List (String × Bool) :=
  match text with
  | none => []
  | some t => if t = "" then [] else [(formatMessage t v.cur_pfx, v.auto_send)]

end VoiceService

/-! Section: claim theorems -/

/-- Claim C2: a release event is a no-op — state unchanged, no call to
`stop_recording_and_process`, no status event — unless the coordinator is
currently recording and the released binding equals the active channel;
in particular a release of one binding while another owns the recording
changes nothing. -/
theorem c2_release_noop_unless_owner (v : VoiceService) (pfx : String)
    (waitOk : Bool) (backend : Except String (List String))
    (h : ¬(v.processor.isRecording = true ∧ v.cur_pfx = pfx)) :
    VoiceService.onHotkeyReleased v pfx waitOk backend = (v, false, []) := by
  have hc : (v.processor.isRecording && v.cur_pfx == pfx) = false := by
    cases hb : (v.processor.isRecording && v.cur_pfx == pfx) with
    | false => rfl
    | true => exact absurd (by simpa using hb) h
  simp [VoiceService.onHotkeyReleased, hc]

/-- Claim C2, witness: releasing the binding with empty prefix while the
binding with prefix `!` owns the active recording is a no-op. -/
theorem c2_release_noop_unless_owner_witness :
    VoiceService.onHotkeyReleased
        ⟨⟨⟨[[1]], true, true⟩, modelReady⟩, true, "!", true⟩ "" true (Except.ok [])
      = (⟨⟨⟨[[1]], true, true⟩, modelReady⟩, true, "!", true⟩, false, []) :=
  c2_release_noop_unless_owner _ _ _ _ (by simp [AudioProcessor.isRecording])

/-- Claim C3: a non-empty transcription result is delivered as the active
prefix, one space and the text when the prefix is non-empty, and as the
text alone when the prefix is empty; concretely, backend text
`hello world` is normalized to `Hello world.` and delivered under prefix
`!` as `! Hello world.` with auto-send. -/
theorem c3_delivery_formats_with_active_channel :
    (∀ (v : VoiceService) (t : String), t ≠ "" →
      VoiceService.onTranscriptionComplete v (some t) =
        [(if v.cur_pfx = "" then t else v.cur_pfx ++ " " ++ t, v.auto_send)])
    ∧ (SpeechRecognizer.transcribe modelReady [0] true
        (Except.ok ["hello world"])).result = Except.ok "Hello world."
    ∧ VoiceService.onTranscriptionComplete
        ⟨⟨VoiceRecorder.started, modelReady⟩, true, "!", true⟩ (some "Hello world.")
      = [("! Hello world.", true)] := by
  refine ⟨?_, ?_, ?_⟩
  · intro v t h
    simp [VoiceService.onTranscriptionComplete, VoiceService.formatMessage, h,
      if_neg h, ite_not]
  · rfl
  · rfl

/-- Claim C3, witness: the general formatting statement applied to the
concrete end-to-end text and channel. -/
theorem c3_delivery_formats_with_active_channel_witness :
    VoiceService.onTranscriptionComplete
        ⟨⟨VoiceRecorder.started, modelReady⟩, true, "!", true⟩ (some "Hello world.")
      = [(if ("!" : String) = "" then "Hello world."
          else "!" ++ " " ++ "Hello world.", true)] :=
  c3_delivery_formats_with_active_channel.1
    ⟨⟨VoiceRecorder.started, modelReady⟩, true, "!", true⟩ "Hello world." (by decide)

/-- Claim C4: when a recording is in progress, `stop_recording_and_process`
invokes the completion callback exactly once — with recognized text or
with `None` — never zero times and never more than once. -/
theorem c4_completion_callback_exactly_once (p : AudioProcessor) (waitOk : Bool)
    (backend : Except String (List String)) (h : p.isRecording = true) :
    (AudioProcessor.stopRecordingAndProcess p waitOk backend).2.length = 1 := by
  unfold AudioProcessor.stopRecordingAndProcess
  rw [h]
  rw [if_neg (by decide : ¬(true = false))]
  rcases hsr : VoiceRecorder.stopRecording p.recorder with ⟨r, res⟩
  cases res with
  | error e => simp
  | ok audio =>
    cases htr : (SpeechRecognizer.transcribe p.recognizer audio waitOk backend).result with
    | ok t => simp [htr]
    | error e => simp [htr]

/-- Claim C4, witness: a concrete stop with one captured chunk and a
successful backend invocation. -/
theorem c4_completion_callback_exactly_once_witness :
    (AudioProcessor.stopRecordingAndProcess ⟨⟨[[1]], true, true⟩, modelReady⟩ true
      (Except.ok ["hi"])).2.length = 1 :=
  c4_completion_callback_exactly_once ⟨⟨[[1]], true, true⟩, modelReady⟩ true
    (Except.ok ["hi"]) rfl

/-- Claim C5: the coordinator raises `ProcessingError` when the model is
not ready, before any state transition (the whole state, recorder
included, is returned unchanged); and from `Idle`, any failing start
leaves `is_recording` false. -/
theorem c5_start_checks_ready_and_stays_idle (p : AudioProcessor) (streamOk : Bool) :
    (p.recognizer.is_model_ready = false →
      AudioProcessor.startRecording p streamOk =
        (p, Except.error "Speech recognition model is not ready"))
    ∧ (p.recorder.is_recording = false →
        ∀ e : String, (AudioProcessor.startRecording p streamOk).2 = Except.error e →
          (AudioProcessor.startRecording p streamOk).1.recorder.is_recording = false) := by
  constructor
  · intro h
    simp [AudioProcessor.startRecording, h]
  · intro hidle e herr
    by_cases hm : p.recognizer.is_model_ready = false
    · simp [AudioProcessor.startRecording, hm]
      exact hidle
    · have hm' : p.recognizer.is_model_ready = true := by
        cases hb : p.recognizer.is_model_ready with
        | false => exact absurd hb hm
        | true => rfl
      cases hs : streamOk with
      | true =>
        exfalso
        simp [AudioProcessor.startRecording, hm', VoiceRecorder.startRecording,
          hidle, hs] at herr
      | false =>
        simp [AudioProcessor.startRecording, hm', VoiceRecorder.startRecording,
          hidle, hs]

/-- Claim C5, witness: start with an unloaded model raises and changes
nothing; start from idle with a failing stream leaves the recorder not
recording. -/
theorem c5_start_checks_ready_and_stays_idle_witness :
    (AudioProcessor.startRecording ⟨⟨[], false, false⟩, modelUnloaded⟩ true =
      (⟨⟨[], false, false⟩, modelUnloaded⟩,
       Except.error "Speech recognition model is not ready"))
    ∧ (AudioProcessor.startRecording ⟨⟨[], false, false⟩, modelReady⟩
        false).1.recorder.is_recording = false :=
  ⟨(c5_start_checks_ready_and_stays_idle ⟨⟨[], false, false⟩, modelUnloaded⟩ true).1 rfl,
   (c5_start_checks_ready_and_stays_idle ⟨⟨[], false, false⟩, modelReady⟩ false).2 rfl
     "Failed to start recording: Failed to start recording" rfl⟩

/-- Claim C6: on empty sample input, `transcribe` raises
`AudioProcessingError` for every model flag state — `Unloaded`, `Loading`,
`Ready` or `Failed` alike — without invoking the backend. -/
theorem c6_transcribe_empty_always_errors (s : SpeechRecognizer) (waitOk : Bool)
    (backend : Except String (List String)) :
    SpeechRecognizer.transcribe s [] waitOk backend =
      ⟨Except.error "No audio data provided", 0⟩ := rfl

/-- Claim C7 counterexample: `start_recording` while a recording (and its
stream) is open returns normally instead of raising, and `stop_recording`
with no stream open returns the empty array normally instead of raising. -/
theorem c7_counterexample :
    (VoiceRecorder.startRecording ⟨[[1]], true, true⟩ true).2 = Except.ok ()
    ∧ (VoiceRecorder.stopRecording ⟨[], false, false⟩).2 = Except.ok [] :=
  ⟨rfl, rfl⟩

/-- Claim C7 as amended: `start_recording` while already recording is a
logged no-op returning normally with the state unchanged, and
`stop_recording` while not recording is a logged no-op returning the empty
array with the state unchanged; neither raises `CaptureError`. -/
theorem c7_wrong_state_is_warned_noop (r : VoiceRecorder) (streamOk : Bool) :
    (r.is_recording = true →
      VoiceRecorder.startRecording r streamOk = (r, Except.ok ()))
    ∧ (r.is_recording = false →
      VoiceRecorder.stopRecording r = (r, Except.ok [])) := by
  constructor
  · intro h
    simp [VoiceRecorder.startRecording, h]
  · intro h
    simp [VoiceRecorder.stopRecording, h]

/-- Claim C7, witness: concrete wrong-state calls for both operations. -/
theorem c7_wrong_state_is_warned_noop_witness :
    (VoiceRecorder.startRecording ⟨[[2]], true, true⟩ true =
      (⟨[[2]], true, true⟩, Except.ok ()))
    ∧ (VoiceRecorder.stopRecording ⟨[], true, false⟩ =
      (⟨[], true, false⟩, Except.ok [])) :=
  ⟨(c7_wrong_state_is_warned_noop ⟨[[2]], true, true⟩ true).1 rfl,
   (c7_wrong_state_is_warned_noop ⟨[], true, false⟩ true).2 rfl⟩

/-- Claim C10: when the model is not ready, `VoiceService.start` returns
without starting the service — `_is_running` stays false, hotkey
monitoring is never begun, and exactly one status event is emitted. -/
theorem c10_service_start_gated_on_model_ready (v : VoiceService)
    (h1 : v.is_running = false)
    (h2 : v.processor.recognizer.is_model_ready = false) :
    VoiceService.startService v =
      (v, false, ["Cannot start: Speech recognition model not ready"]) := by
  simp [VoiceService.startService, h1, h2]

/-- Claim C10, witness: a stopped service with an unloaded model. -/
theorem c10_service_start_gated_on_model_ready_witness :
    VoiceService.startService ⟨⟨⟨[], false, false⟩, modelUnloaded⟩, false, "", true⟩ =
      (⟨⟨⟨[], false, false⟩, modelUnloaded⟩, false, "", true⟩, false,
       ["Cannot start: Speech recognition model not ready"]) :=
  c10_service_start_gated_on_model_ready
    ⟨⟨⟨[], false, false⟩, modelUnloaded⟩, false, "", true⟩ rfl rfl

/-- Code points below 123 round-trip through `Char.ofNat`. -/
theorem char_ofNat_toNat_small : ∀ n : Nat, n < 123 → (Char.ofNat n).toNat = n := by
  decide

/-- Basic-latin uppercasing is idempotent. -/
theorem toUpper_toUpper (c : Char) : c.toUpper.toUpper = c.toUpper := by
  by_cases h : c.toNat ≥ 97 ∧ c.toNat ≤ 122
  · have h1 : Char.toUpper c = Char.ofNat (c.toNat - 32) := by
      simp only [Char.toUpper]
      rw [if_pos h]
    have h2 : (Char.ofNat (c.toNat - 32)).toNat = c.toNat - 32 :=
      char_ofNat_toNat_small _ (by omega)
    rw [h1]
    simp only [Char.toUpper]
    rw [if_neg (by rw [h2]; omega)]
  · simp only [Char.toUpper]
    rw [if_neg h, if_neg h]

/-- A list ending in `.` ends in a sentence ending. -/
theorem endsWithEnding_concat_dot (l : List Char) :
    endsWithEnding (l ++ ['.']) = true := by
  unfold endsWithEnding
  rw [List.getLast?_concat]
  rfl

/-- The `_format_text` normalization is idempotent on character lists. -/
theorem formatTextL_idem (s : List Char) :
    formatTextL (formatTextL s) = formatTextL s := by
  cases s with
  | nil => rfl
  | cons c rest =>
    simp only [formatTextL]
    by_cases h : endsWithEnding (c.toUpper :: rest) = true
    · rw [if_pos h]
      simp only [formatTextL]
      rw [toUpper_toUpper, if_pos h]
    · rw [if_neg h]
      rw [show (c.toUpper :: rest) ++ ['.'] = c.toUpper :: (rest ++ ['.']) from rfl]
      simp only [formatTextL]
      rw [toUpper_toUpper]
      rw [if_pos (by
        rw [show (c.toUpper :: (rest ++ ['.'])) = (c.toUpper :: rest) ++ ['.'] from rfl]
        exact endsWithEnding_concat_dot _)]

/-- Claim C8: text normalization — uppercase the first character, append a
period unless the text already ends in `.`, `!` or `?` — is idempotent on
every string. -/
theorem c8_format_text_idempotent (s : String) :
    format_text (format_text s) = format_text s := by
  unfold format_text
  rw [show (String.mk (formatTextL s.data)).data = formatTextL s.data from rfl]
  rw [formatTextL_idem]

/-- A sequence of `initialize_model_async` calls in the `Loading` state
spawns no further loader thread. -/
theorem loadAsyncCount_loading (n : Nat) : loadAsyncCount modelLoading n = 0 := by
  induction n with
  | zero => rfl
  | succ n ih =>
    simp only [loadAsyncCount, SpeechRecognizer.initModelAsync, modelLoading]
    simpa using ih

/-- Claim C9: `initialize_model_async` is idempotent — a no-op whenever
the loader is already `Loading` or `Ready` — so a sequence of calls from
the unloaded state spawns exactly one construction attempt; and every
terminating load attempt invokes the registered observer exactly once. -/
theorem c9_load_async_idempotent_and_observer_once :
    (∀ s : SpeechRecognizer, s.is_model_loading = true ∨ s.is_model_ready = true →
      SpeechRecognizer.initModelAsync s = (s, false))
    ∧ (∀ n : Nat, loadAsyncCount modelUnloaded (n + 1) = 1)
    ∧ (∀ (s : SpeechRecognizer) (constructionOk : Bool),
        (SpeechRecognizer.loadModelSync s constructionOk).2.length = 1) := by
  refine ⟨?_, ?_, ?_⟩
  · intro s h
    rcases h with h | h <;> simp [SpeechRecognizer.initModelAsync, h]
  · intro n
    have : (SpeechRecognizer.initModelAsync modelUnloaded) = (modelLoading, true) := rfl
    simp only [loadAsyncCount, this]
    simpa using loadAsyncCount_loading n
  · intro s constructionOk
    unfold SpeechRecognizer.loadModelSync
    by_cases h : s.model_loaded = true
    · simp [h]
    · by_cases hc : constructionOk = true <;> simp [h, hc]

/-- Claim C9, witness: a call in the `Loading` state is a no-op, three
calls from `Unloaded` spawn one attempt, and one successful attempt
notifies the observer once. -/
theorem c9_load_async_idempotent_and_observer_once_witness :
    SpeechRecognizer.initModelAsync modelLoading = (modelLoading, false)
    ∧ loadAsyncCount modelUnloaded 3 = 1
    ∧ (SpeechRecognizer.loadModelSync modelUnloaded true).2.length = 1 :=
  ⟨c9_load_async_idempotent_and_observer_once.1 modelLoading (Or.inl rfl),
   c9_load_async_idempotent_and_observer_once.2.1 2,
   c9_load_async_idempotent_and_observer_once.2.2 modelUnloaded true⟩
